import Mathlib

/-!
Verification of the aries video-analytics core against its specification.

Each definition is a shallow embedding of a function of the repository:

* `Aries.ConfigService` — `services/processor/services/config_service.py`
* `Aries.DetectionSimulator` — `services/api/app/services/detection_simulator.py`
* `Aries.Consumer` — `services/api/app/services/consumer_service.py`
* `Aries.StreamProcessor` — `services/api/app/services/stream_processor.py`
* `Aries.MockStream` — `services/api/app/services/mock_stream_processor.py`
* `Aries.WebSocketManager` — `services/api/app/services/websocket_manager.py`
-/

namespace Aries

namespace ConfigService

/-- One loop iteration of `ConfigService._point_in_polygon` for the edge
`(p1, p2)`.  The Python body is

```
if y > min(p1y, p2y):
    if y <= max(p1y, p2y):
        if x <= max(p1x, p2x):
            if p1y != p2y:
                xinters = (y - p1y) * (p2x - p1x) / (p2y - p1y) + p1x
            if p1x == p2x or x <= xinters:
                inside = not inside
```

Inside the three guards `p1y = p2y` is impossible (it would force
`y > p1y` and `y <= p1y`), so `xinters` is always freshly assigned before
it is read and the stale-variable case never arises. -/
def pipStep (x y : ℚ) (inside : Bool) (p1 p2 : ℚ × ℚ) : Bool :=
  if y > min p1.2 p2.2 then
    if y ≤ max p1.2 p2.2 then
      if x ≤ max p1.1 p2.1 then
        let xinters := (y - p1.2) * (p2.1 - p1.1) / (p2.2 - p1.2) + p1.1
        if p1.1 == p2.1 || x ≤ xinters then !inside else inside
      else inside
    else inside
  else inside

/-- The loop of `_point_in_polygon`: `p1` starts at `polygon[0]` and each
iteration consumes the next `p2`. -/
def pipLoop (x y : ℚ) (inside : Bool) (p1 : ℚ × ℚ) : List (ℚ × ℚ) → Bool
  | [] => inside
  | p2 :: rest => pipLoop x y (pipStep x y inside p1 p2) p2 rest

/-- Embeds `ConfigService._point_in_polygon(x, y, polygon)`.  The Python loop runs
`i` over `range(n + 1)` with `p2 = polygon[i % n]`, so the successive `p2`
values are `polygon[0], polygon[1], …, polygon[n-1], polygon[0]`; on an
empty polygon `polygon[0]` raises and the surrounding `except` returns
`False`. -/
def point_in_polygon (x y : ℚ) (polygon : List (ℚ × ℚ)) : Bool :=
  match polygon with
  | [] => false
  | p0 :: _ => pipLoop x y false p0 (polygon ++ [p0])

/-- The spec's crossing test for one polygon edge: a horizontal ray from
`(x, y)` to +infinity crosses the edge `(p1, p2)` iff `y` lies in the
half-open vertical span of the edge and the edge point at height `y` is at
or to the right of `x` (for a vertical edge that point has abscissa
`p1.1 = p2.1`). -/
def crossesRay (x y : ℚ) (p1 p2 : ℚ × ℚ) : Bool :=
  decide (min p1.2 p2.2 < y) && decide (y ≤ max p1.2 p2.2) &&
    (if p1.1 == p2.1 then decide (x ≤ p1.1)
     else decide (x ≤ (y - p1.2) * (p2.1 - p1.1) / (p2.2 - p1.2) + p1.1))

/-- The edges of a polygon, `(p[i], p[i+1 mod n])` for `i = 0 … n-1`. -/
def polygonEdges (polygon : List (ℚ × ℚ)) : List ((ℚ × ℚ) × (ℚ × ℚ)) :=
  match polygon with
  | [] => []
  | p0 :: rest => List.zip polygon (rest ++ [p0])

/-- Number of polygon edges crossed by the horizontal ray from `(x, y)`. -/
def rayCrossingCount (x y : ℚ) (polygon : List (ℚ × ℚ)) : Nat :=
  (polygonEdges polygon).countP (fun e => crossesRay x y e.1 e.2)

/-- The square ROI polygon used by the spec's test vector. -/
def squarePoly : List (ℚ × ℚ) := [(1, 1), (5, 1), (5, 5), (1, 5)]

end ConfigService

/-- Ordered association list standing for a Python `dict` (insertion
order preserved).  `dinsert` is `d[k] = v`: it overwrites an existing
binding in place or appends a new one at the end. -/
def dinsert {α : Type} (k : String) (v : α) : List (String × α) → List (String × α)
  | [] => [(k, v)]
  | (k2, v2) :: rest => if k2 == k then (k2, v) :: rest else (k2, v2) :: dinsert k v rest

/-- Models `del d[k]` on an association list. -/
def dremove {α : Type} (k : String) (l : List (String × α)) : List (String × α) :=
  l.filter (fun p => !(p.1 == k))

namespace DetectionSimulator

/-- Models `timedelta.seconds` of a non-negative whole-second difference: the
seconds-within-day component, not the total duration. -/
def tdSeconds (d : Nat) : Nat := d % 86400

/-- The record stored in `DetectionSimulator.active_detections` by
`simulate_detection`; note that the code writes only `camera_id`,
`class` and `last_seen` — no record ever carries a `first_seen` key,
which we keep as an `Option` to model `dict.get` faithfully. -/
structure Track where
  camera_id : String
  cls : String
  last_seen : Nat
  first_seen : Option Nat
deriving DecidableEq, Repr

/-- The candidate filter of `DetectionSimulator.generate_object_id`:
tracks of the same camera and class whose
`(utcnow() - last_seen).seconds` is below 30. -/
def reuseCandidates (active : List (String × Track)) (camera_id cls : String)
    (now : Nat) : List String :=
  (active.filter (fun p =>
    p.2.camera_id == camera_id && p.2.cls == cls &&
      decide (tdSeconds (now - p.2.last_seen) < 30))).map Prod.fst

/-- Embeds `DetectionSimulator.generate_object_id`.  The random draws are
oracles: `reuseRoll` is `random.random() < 0.3`, `pickIdx` selects the
`random.choice` element, and `freshId` is the freshly minted
`f"{object_class}_{uuid4().hex[:8]}"`. -/
def generate_object_id (active : List (String × Track)) (camera_id cls : String)
    (now : Nat) (reuseRoll : Bool) (pickIdx : Nat) (freshId : String) : String :=
  if reuseRoll then
    let existing := reuseCandidates active camera_id cls now
    if existing.isEmpty then freshId
    else existing.getD (pickIdx % existing.length) freshId
  else freshId

/-- Mutable state of `DetectionSimulator` touched by a detection:
`active_detections` (object id → track record) and `object_counters`
(camera id → class → count). -/
structure SimState where
  active_detections : List (String × Track)
  object_counters : List (String × List (String × Nat))
deriving DecidableEq, Repr

/-- The counter block of `DetectionSimulator.simulate_detection`:
ensure the camera and class keys exist, then increment when the gate
passes. -/
def updateCounters (counters : List (String × List (String × Nat)))
    (camera_id cls : String) (gate : Bool) : List (String × List (String × Nat)) :=
  let c1 := if (List.lookup camera_id counters).isNone then dinsert camera_id [] counters
            else counters
  let camMap := (List.lookup camera_id c1).getD []
  let camMap2 := if (List.lookup cls camMap).isNone then dinsert cls 0 camMap else camMap
  let camMap3 := if gate then dinsert cls ((List.lookup cls camMap2).getD 0 + 1) camMap2
                 else camMap2
  dinsert camera_id camMap3 c1

/-- The state mutation of `DetectionSimulator.simulate_detection` for a
resolved `object_id`: store the track record (without `first_seen`),
then run the counter block gated on
`(utcnow() - record.get("first_seen", utcnow())).seconds < 1`. -/
def simulate_detection (s : SimState) (camera_id object_id cls : String)
    (now : Nat) : SimState :=
  let track : Track := ⟨camera_id, cls, now, none⟩
  let active := dinsert object_id track s.active_detections
  let stored := (List.lookup object_id active).getD track
  let gate := tdSeconds (now - stored.first_seen.getD now) < 1
  { active_detections := active,
    object_counters := updateCounters s.object_counters camera_id cls gate }

end DetectionSimulator

namespace Consumer

/-- The fields of a queue message that drive `process_message`'s control
flow; `none` models an absent (or `None`) field.  The remaining payload
fields only populate the created `AlertEvent` and never branch. -/
structure QueueMessage where
  camera_id : Option String
  analytics_job_id : Option String
deriving DecidableEq, Repr

/-- Collaborator behaviour for one message: whether the referenced
entities resolve and whether `session.commit()` succeeds
(`storeUp = false` makes the commit raise, the transient
store-unavailable failure). -/
structure ConsumerEnv where
  cameraExists : String → Bool
  jobExists : String → Bool
  storeUp : Bool

inductive ProcResult
  | invalidFormat
  | notFound
  | persisted
  | storeError
deriving DecidableEq, Repr

/-- The `try:` body of `MetadataConsumer.process_message`; `.error`
models an exception escaping the body (only the store write can
raise here). -/
def process_message_body (env : ConsumerEnv) (msg : QueueMessage) :
    Except String ProcResult :=
  match msg.camera_id, msg.analytics_job_id with
  | some cid, some jid =>
    if env.cameraExists cid && env.jobExists jid then
      if env.storeUp then .ok .persisted else .error "store unavailable"
    else .ok .notFound
  | _, _ => .ok .invalidFormat

/-- Embeds `MetadataConsumer.process_message`: the body runs under
`except Exception as e: logger.error(...)`, so every exception is
swallowed and the coroutine returns normally. -/
def process_message (env : ConsumerEnv) (msg : QueueMessage) : Except String ProcResult :=
  match process_message_body env msg with
  | .ok r => .ok r
  | .error _e => .ok .storeError

inductive AckAction
  | ack
  | nack
deriving DecidableEq, Repr

/-- The per-message part of `MetadataConsumer.consume_metadata`:
JSON-decode failure negative-acknowledges; otherwise the message is
acknowledged when `process_message` returns and negative-acknowledged
when it raises. -/
def consume_step (env : ConsumerEnv) (parsed : Option QueueMessage) : AckAction :=
  match parsed with
  | none => .nack
  | some msg =>
    match process_message env msg with
    | .ok _ => .ack
    | .error _ => .nack

end Consumer

namespace StreamProcessor

/-- Embeds `StreamConfig` with its default field values. -/
structure StreamConfig where
  camera_id : String
  url : String
  quality : String := "medium"
  fps : Nat := 15
  width : Nat := 640
  height : Nat := 480
  buffer_size : Nat := 30
  reconnect_attempts : Nat := 3
  reconnect_delay : Nat := 5
deriving DecidableEq, Repr

/-- Observable state of a `VideoStreamProcessor`; frames are abstracted
to `Nat`, `cap` records whether a capture handle is held. -/
structure ProcState where
  config : StreamConfig
  cap : Bool
  is_connected : Bool
  frame_buffer : List Nat
  metadata_buffer : List Nat
  current_frame : Option Nat
  frame_count : Nat
  error_count : Nat
  stream_status : String
deriving DecidableEq, Repr

/-- Embeds `VideoStreamProcessor.__init__`. -/
def initProc (config : StreamConfig) : ProcState :=
  { config := config, cap := false, is_connected := false, frame_buffer := [],
    metadata_buffer := [], current_frame := none, frame_count := 0,
    error_count := 0, stream_status := "idle" }

/-- Embeds `VideoStreamProcessor.cleanup`: release the capture handle, clear
both buffers, mark disconnected.  The error counter is not reset. -/
def cleanup (s : ProcState) : ProcState :=
  { s with
    cap := false, is_connected := false, stream_status := "disconnected",
    frame_buffer := [], metadata_buffer := [] }

/-- Externally visible actions of `connect`, used to count open
attempts and delays. -/
inductive StreamEvent
  | openAttempt
  | sleep (secs : Nat)
deriving DecidableEq, Repr

/-- Embeds `VideoStreamProcessor.connect`: construct one `cv2.VideoCapture`
(the property `set` calls do not change modeled state), test-read a
frame, and either mark connected or clean up.  `readOk` is the oracle
for the test read; the event list records the open attempts and sleeps
performed. -/
def connect (s : ProcState) (readOk : Bool) (frame : Nat) :
    ProcState × Bool × List StreamEvent :=
  let s1 := { s with cap := true }
  if readOk then
    ({ s1 with
        is_connected := true, stream_status := "connected",
        current_frame := some frame, frame_count := s1.frame_count + 1 },
      true, [.openAttempt])
  else (cleanup s1, false, [.openAttempt])

/-- Embeds `VideoStreamProcessor.read_frame` driven by a read-outcome oracle. -/
def read_frame (s : ProcState) (readOk : Bool) (frame : Nat) : ProcState × Option Nat :=
  if !s.cap || !s.is_connected then (s, none)
  else if readOk then
    ({ s with
        current_frame := some frame, frame_count := s.frame_count + 1,
        error_count := 0 }, some frame)
  else
    let s2 := { s with error_count := s.error_count + 1 }
    if s.config.reconnect_attempts ≤ s2.error_count then (cleanup s2, none)
    else (s2, none)

/-- HLS segments as stored in `StreamManager.hls_playlists`; the code
always passes the integer duration 2. -/
structure Segment where
  segment_id : String
  duration : Nat
deriving DecidableEq, Repr

/-- Mutable state of `StreamManager`. -/
structure ManagerState where
  streams : List (String × ProcState)
  hls_playlists : List (String × List Segment)
deriving DecidableEq, Repr

def emptyManager : ManagerState := { streams := [], hls_playlists := [] }

/-- Embeds `StreamManager.start_stream` with the default configuration branch
(`config=None`): running it on an already-registered camera returns
`True` untouched; otherwise a processor is created and `connect` is
attempted, retaining the session only on success. -/
def start_stream (m : ManagerState) (camera_id url : String) (readOk : Bool) :
    ManagerState × Bool × List StreamEvent :=
  if (List.lookup camera_id m.streams).isSome then (m, true, [])
  else
    let cfg : StreamConfig := { camera_id := camera_id, url := url }
    let proc := initProc cfg
    let r := connect proc readOk 0
    if r.2.1 then
      ({ streams := dinsert camera_id r.1 m.streams,
         hls_playlists := dinsert camera_id [] m.hls_playlists }, true, r.2.2)
    else (m, false, r.2.2)

/-- Embeds `StreamManager.stop_stream`. -/
def stop_stream (m : ManagerState) (camera_id : String) : ManagerState × Bool :=
  match List.lookup camera_id m.streams with
  | none => (m, false)
  | some _ =>
    ({ streams := dremove camera_id m.streams,
       hls_playlists := dremove camera_id m.hls_playlists }, true)

/-- The read loop of `StreamManager._process_stream` driven by a list of
read outcomes; `read_frame` is a no-op once the session is disconnected,
matching the loop's `while processor.is_connected` exit. -/
def runReads (s : ProcState) (reads : List Bool) : ProcState :=
  reads.foldl (fun st r => (read_frame st r 0).1) s

/-- Embeds `StreamManager._process_stream` followed by its `finally` block: after
the reads, a session that is no longer connected is stopped and removed
from the active set. -/
def processStreamFinal (m : ManagerState) (camera_id : String) (reads : List Bool) :
    ManagerState :=
  match List.lookup camera_id m.streams with
  | none => m
  | some proc =>
    let proc2 := runReads proc reads
    let m2 : ManagerState := { m with streams := dinsert camera_id proc2 m.streams }
    if proc2.is_connected then m2 else (stop_stream m2 camera_id).1

/-- Embeds `StreamManager.get_stream_info`: `none` is the Python `None`
("not found"); a present processor yields the info source. -/
def get_stream_info (m : ManagerState) (camera_id : String) : Option ProcState :=
  List.lookup camera_id m.streams

/-- Formats `f"{d:.3f}"` for the integer durations the code stores. -/
def fmtDuration (d : Nat) : String := toString d ++ ".000"

/-- The `m3u8_content` list built by `StreamManager.get_hls_playlist`:
header, one `#EXTINF` line and one segment reference per segment, and an
unconditional `#EXT-X-ENDLIST`. -/
def get_hls_playlist_lines (playlist : List Segment) : List String :=
  ["#EXTM3U", "#EXT-X-VERSION:3", "#EXT-X-TARGETDURATION:3"] ++
    playlist.flatMap (fun seg =>
      ["#EXTINF:" ++ fmtDuration seg.duration ++ ",",
       "segment_" ++ seg.segment_id ++ ".ts"]) ++
    ["#EXT-X-ENDLIST"]

/-- Embeds `StreamManager.get_hls_playlist`. -/
def get_hls_playlist (m : ManagerState) (camera_id : String) : Option String :=
  match List.lookup camera_id m.hls_playlists with
  | none => none
  | some playlist =>
    if playlist.isEmpty then none
    else some (String.intercalate "\n" (get_hls_playlist_lines playlist))

end StreamProcessor

namespace MockStream

/-- Produces `"0" * k`. -/
def zeros : Nat → String
  | 0 => ""
  | k + 1 => "0" ++ zeros k

/-- Formats `f"{i:06d}"`. -/
def pad6 (i : Nat) : String :=
  zeros (6 - (toString i).length) ++ toString i

/-- Formats `f"segment_{i:06d}.ts"`. -/
def segName (i : Nat) : String := "segment_" ++ pad6 i ++ ".ts"

/-- Computes `start_segment = max(0, last_segment - 4)` of
`MockStreamProcessor._update_media_playlist` (truncated subtraction on
`Nat` is exactly that `max`). -/
def mediaSeqStart (last_segment : Nat) : Nat := last_segment - 4

/-- The retained segment sequence numbers,
`range(start_segment, last_segment + 1)`. -/
def playlistSegs (last_segment : Nat) : List Nat :=
  List.range' (mediaSeqStart last_segment) (last_segment + 1 - mediaSeqStart last_segment)

/-- The `segments` list of `_update_media_playlist`: an
`#EXTINF:4.0,` line and a segment reference per retained segment. -/
def segLines (last_segment : Nat) : List String :=
  (playlistSegs last_segment).flatMap (fun i => ["#EXTINF:4.0,", segName i])

/-- All lines of the media playlist written by
`_update_media_playlist`. -/
def mediaPlaylistLines (last_segment : Nat) : List String :=
  ["#EXTM3U", "#EXT-X-VERSION:3", "#EXT-X-TARGETDURATION:4",
   "#EXT-X-MEDIA-SEQUENCE:" ++ toString (mediaSeqStart last_segment)] ++
    segLines last_segment

/-- The playlist file text (the f-string joins the lines with newlines
and ends with a trailing newline). -/
def mediaPlaylistContent (last_segment : Nat) : String :=
  String.intercalate "\n" (mediaPlaylistLines last_segment) ++ "\n"

end MockStream

namespace WebSocketManager

/-- Connections (`WebSocket` objects) by identity. -/
abbrev Conn := Nat

/-- Embeds the `ConnectionManager` state: the global set and the two keyed
subscription indices, Python sets as lists and dicts as
insertion-ordered association lists. -/
structure CMState where
  active_connections : List Conn
  camera_subscriptions : List (String × List Conn)
  user_subscriptions : List (String × List Conn)
deriving DecidableEq, Repr

/-- Models `set.discard`. -/
def discard (ws : Conn) (l : List Conn) : List Conn := l.filter (fun c => !(c == ws))

/-- The camera-subscription loop of `ConnectionManager.disconnect`.  It
iterates the dict in insertion order, discarding `ws` and deleting
entries that become empty; in CPython deleting a dict entry during
iteration raises `RuntimeError` at the next iteration step, so entries
after the first deleted one are left untouched. -/
def dropCascade (ws : Conn) : List (String × List Conn) → List (String × List Conn)
  | [] => []
  | (cid, conns) :: rest =>
    let conns2 := discard ws conns
    if conns2.isEmpty then rest
    else (cid, conns2) :: dropCascade ws rest

/-- The user-subscription block of `ConnectionManager.disconnect`: runs
only when a `user_id` argument was passed. -/
def dropUser (ws : Conn) (uid? : Option String)
    (subs : List (String × List Conn)) : List (String × List Conn) :=
  match uid? with
  | none => subs
  | some uid =>
    match List.lookup uid subs with
    | none => subs
    | some s =>
      let s2 := discard ws s
      if s2.isEmpty then dremove uid subs else dinsert uid s2 subs

/-- Embeds `ConnectionManager.disconnect`. -/
def disconnect (s : CMState) (ws : Conn) (uid? : Option String) : CMState :=
  { active_connections := discard ws s.active_connections,
    user_subscriptions := dropUser ws uid? s.user_subscriptions,
    camera_subscriptions := dropCascade ws s.camera_subscriptions }

/-- Embeds `ConnectionManager.send_personal_message` inside a broadcast: a
failing `send_json` enters the handler, which runs
`self.disconnect(websocket)` — with no `user_id` — and the exception the
handler then raises is swallowed by `asyncio.gather(...,
return_exceptions=True)`.  Returns the state after the call and whether
the message was delivered. -/
def send_personal_message (s : CMState) (ws : Conn) (fails : Conn → Bool) :
    CMState × Bool :=
  if fails ws then (disconnect s ws none, false) else (s, true)

/-- Embeds `ConnectionManager.broadcast_message`: a snapshot of the active set
is taken, one send task per member runs under `asyncio.gather`.  Each
task's delivery depends only on its own connection; the failing tasks'
`disconnect` calls mutate the shared state in task order. -/
def broadcast_message (s : CMState) (fails : Conn → Bool) : CMState × List Conn :=
  let snapshot := s.active_connections
  (snapshot.foldl (fun acc c => (send_personal_message acc c fails).1) s,
   snapshot.filter (fun c => !(fails c)))

/-- Embeds `ConnectionManager.broadcast_to_camera_subscribers`. -/
def broadcast_to_camera_subscribers (s : CMState) (camera_id : String)
    (fails : Conn → Bool) : CMState × List Conn :=
  match List.lookup camera_id s.camera_subscriptions with
  | none => (s, [])
  | some websockets =>
    (websockets.foldl (fun acc c => (send_personal_message acc c fails).1) s,
     websockets.filter (fun c => !(fails c)))

/-- Embeds `ConnectionManager.broadcast_detection`: the same message goes to
every active connection via `broadcast_message` and then, when the
detection carries a camera id, again to that camera's subscribers.  The
returned list is the sequence of deliveries of the message. -/
def broadcast_detection (s : CMState) (camera_id? : Option String)
    (fails : Conn → Bool) : CMState × List Conn :=
  let r1 := broadcast_message s fails
  match camera_id? with
  | some cid =>
    let r2 := broadcast_to_camera_subscribers r1.1 cid fails
    (r2.1, r1.2 ++ r2.2)
  | none => r1

/-- The member set of a camera scope. -/
def camSet (s : CMState) (cid : String) : List Conn :=
  (List.lookup cid s.camera_subscriptions).getD []

end WebSocketManager

/-! Concrete instances used by the theorems below. -/

/-- A manager state with two members in the global scope, where
connection 1 is the sole subscriber of camera `"a"`, shares camera `"b"`
with connection 2, and is subscribed under user `"u"`. -/
def brokenState : WebSocketManager.CMState :=
  ⟨[1, 2], [("a", [1]), ("b", [1, 2])], [("u", [1])]⟩

/-- A simulator state holding one live track (last seen at t = 100) and
a per-camera per-class count of 5. -/
def c2State : DetectionSimulator.SimState :=
  ⟨[("person_abc", ⟨"cam1", "person", 100, none⟩)], [("cam1", [("person", 5)])]⟩

/-- A track store holding a single track last seen a day and ten seconds
in the past relative to t = 86410. -/
def c9Store : List (String × DetectionSimulator.Track) :=
  [("person_old", ⟨"cam1", "person", 0, none⟩)]

/-- An environment where both referenced entities resolve but the store
is unavailable (`session.commit()` raises). -/
def c3Env : Consumer.ConsumerEnv := ⟨fun _ => true, fun _ => true, false⟩

/-- A well-formed queue message referencing existing entities. -/
def c3Msg : Consumer.QueueMessage := ⟨some "cam1", some "job1"⟩

/-- A processor that connected successfully on the first read. -/
def c4Proc : StreamProcessor.ProcState :=
  (StreamProcessor.connect
    (StreamProcessor.initProc { camera_id := "cam1", url := "rtsp://cam1" }) true 7).1

/-- A manager owning the connected session for camera `"cam1"`. -/
def c4Manager : StreamProcessor.ManagerState :=
  ⟨[("cam1", c4Proc)], [("cam1", [])]⟩

/-- A one-segment playlist as `_add_hls_segment` stores it. -/
def c7Playlist : List StreamProcessor.Segment := [⟨"abc12345", 2⟩]

/-- Two active connections of which only connection 2 subscribes to
camera `"camA"`. -/
def c10State : WebSocketManager.CMState := ⟨[1, 2], [("camA", [2])], []⟩

end Aries

/-! ## Theorems -/

namespace Aries

open ConfigService DetectionSimulator Consumer StreamProcessor MockStream WebSocketManager

theorem xinters_le_max (p1x p1y p2x p2y y : ℚ) (hmin : min p1y p2y < y)
    (hmax : y ≤ max p1y p2y) (hne : p1y ≠ p2y) :
    (y - p1y) * (p2x - p1x) / (p2y - p1y) + p1x ≤ max p1x p2x := by
  rcases lt_or_gt_of_ne hne with h | h
  · have hd : 0 < p2y - p1y := by linarith
    rw [min_eq_left h.le] at hmin
    rw [max_eq_right h.le] at hmax
    have key : (y - p1y) * (p2x - p1x) / (p2y - p1y) ≤ max p1x p2x - p1x := by
      rw [div_le_iff₀ hd]
      rcases le_total p1x p2x with hx | hx
      · rw [max_eq_right hx]; nlinarith
      · rw [max_eq_left hx]; nlinarith
    linarith
  · have hd : p2y - p1y < 0 := by linarith
    rw [min_eq_right h.le] at hmin
    rw [max_eq_left h.le] at hmax
    have key : (y - p1y) * (p2x - p1x) / (p2y - p1y) ≤ max p1x p2x - p1x := by
      rw [div_le_iff_of_neg hd]
      rcases le_total p1x p2x with hx | hx
      · rw [max_eq_right hx]; nlinarith
      · rw [max_eq_left hx]; nlinarith
    linarith

theorem pipStep_eq_xor (x y : ℚ) (b : Bool) (p1 p2 : ℚ × ℚ) :
    pipStep x y b p1 p2 = (crossesRay x y p1 p2 ^^ b) := by
  obtain ⟨p1x, p1y⟩ := p1
  obtain ⟨p2x, p2y⟩ := p2
  simp only [pipStep, crossesRay]
  by_cases h1 : min p1y p2y < y
  · by_cases h2 : y ≤ max p1y p2y
    · have hne : p1y ≠ p2y := by
        intro hEq
        rw [hEq, min_self] at h1
        rw [hEq, max_self] at h2
        linarith
      by_cases hv : p1x = p2x
      · subst hv
        by_cases hx : x ≤ p1x
        · simp [h1, h2, hx, max_self]
        · simp [h1, h2, hx, max_self]
      · by_cases hx : x ≤ (y - p1y) * (p2x - p1x) / (p2y - p1y) + p1x
        · have hm : x ≤ max p1x p2x :=
            le_trans hx (xinters_le_max p1x p1y p2x p2y y h1 h2 hne)
          simp [h1, h2, hv, hx, hm]
        · by_cases hm : x ≤ max p1x p2x
          · simp [h1, h2, hv, hx, hm]
          · simp [h1, h2, hv, hx, hm]
    · simp [h1, h2]
  · simp [h1]

theorem crossesRay_self (x y : ℚ) (p : ℚ × ℚ) : crossesRay x y p p = false := by
  simp only [crossesRay, min_self, max_self]
  by_cases h1 : p.2 < y
  · have h2 : ¬ y ≤ p.2 := not_le.mpr h1
    simp [h1, h2]
  · simp [h1]

theorem countParity_cons (c : Bool) (k : Nat) :
    ((k + if c then 1 else 0) % 2 == 1) = (c ^^ (k % 2 == 1)) := by
  cases c
  · simp
  · rcases Nat.mod_two_eq_zero_or_one k with h | h <;> simp [Nat.add_mod, h]

theorem pipLoop_parity (x y : ℚ) (l : List (ℚ × ℚ)) : ∀ (b : Bool) (p1 : ℚ × ℚ),
    pipLoop x y b p1 l =
      (b ^^ ((List.zip (p1 :: l) l).countP (fun e => crossesRay x y e.1 e.2) % 2 == 1)) := by
  induction l with
  | nil => intro b p1; simp [pipLoop]
  | cons p2 rest ih =>
    intro b p1
    show pipLoop x y (pipStep x y b p1 p2) p2 rest = _
    rw [ih, pipStep_eq_xor, List.zip_cons_cons, List.countP_cons, countParity_cons]
    simp [Bool.xor_assoc, Bool.xor_left_comm, Bool.xor_comm]

theorem zip_append_left {α β : Type} (l2 : List β) : ∀ (l1 t : List α),
    l2.length ≤ l1.length → List.zip (l1 ++ t) l2 = List.zip l1 l2 := by
  induction l2 with
  | nil => intro l1 t _; simp [List.zip_nil_right]
  | cons b l2 ih =>
    intro l1 t h
    cases l1 with
    | nil => simp at h
    | cons a l1 =>
      simp only [List.cons_append, List.zip_cons_cons]
      rw [ih l1 t (by simpa using h)]

theorem point_in_polygon_parity (x y : ℚ) (polygon : List (ℚ × ℚ)) :
    point_in_polygon x y polygon = (rayCrossingCount x y polygon % 2 == 1) := by
  match polygon with
  | [] => rfl
  | p0 :: rest =>
    show pipLoop x y false p0 ((p0 :: rest) ++ [p0]) = _
    rw [pipLoop_parity]
    have hzip : List.zip (p0 :: ((p0 :: rest) ++ [p0])) ((p0 :: rest) ++ [p0]) =
        (p0, p0) :: List.zip (p0 :: rest) (rest ++ [p0]) := by
      have hsh : (p0 :: ((p0 :: rest) ++ [p0])) = (p0 :: p0 :: rest) ++ [p0] := by simp
      rw [hsh, zip_append_left ((p0 :: rest) ++ [p0]) (p0 :: p0 :: rest) [p0] (by simp)]
      simp [List.zip_cons_cons]
    rw [hzip, List.countP_cons]
    simp [rayCrossingCount, polygonEdges, crossesRay_self]

/-- C8: the ray-casting test classifies the spec's vectors — `(3,3)`
inside and `(0,0)` outside the square `[(1,1),(5,1),(5,5),(1,5)]` — the
vertex `(1,1)` gets the deterministic answer "outside" by the same rule,
and in general a point is reported inside iff the number of polygon
edges crossed by the horizontal ray from the point to +infinity is
odd. -/
theorem C8_point_in_polygon_ray_casting :
    point_in_polygon 3 3 squarePoly = true ∧
    point_in_polygon 0 0 squarePoly = false ∧
    point_in_polygon 1 1 squarePoly = false ∧
    ∀ (x y : ℚ) (polygon : List (ℚ × ℚ)),
      point_in_polygon x y polygon = (rayCrossingCount x y polygon % 2 == 1) :=
  ⟨by decide, by decide, by decide, point_in_polygon_parity⟩

end Aries

namespace Aries

open DetectionSimulator StreamProcessor MockStream WebSocketManager

theorem lookup_dinsert {α : Type} (k : String) (v : α) (l : List (String × α)) :
    List.lookup k (dinsert k v l) = some v := by
  induction l with
  | nil => simp [dinsert, List.lookup]
  | cons p rest ih =>
    obtain ⟨k2, v2⟩ := p
    simp only [dinsert]
    by_cases h : k2 = k
    · subst h; simp [List.lookup]
    · have hb : (k2 == k) = false := beq_eq_false_iff_ne.mpr h
      have hb2 : (k == k2) = false := beq_eq_false_iff_ne.mpr (Ne.symm h)
      simp [hb, List.lookup, hb2, ih]

theorem lookup_dremove {α : Type} (k : String) (l : List (String × α)) :
    List.lookup k (dremove k l) = none := by
  induction l with
  | nil => rfl
  | cons p rest ih =>
    obtain ⟨k2, v2⟩ := p
    by_cases h : k2 = k
    · subst h
      simpa [dremove] using ih
    · have hb : (k2 == k) = false := beq_eq_false_iff_ne.mpr h
      have hb2 : (k == k2) = false := beq_eq_false_iff_ne.mpr (Ne.symm h)
      simp only [dremove, List.filter, hb, Bool.not_false]
      simpa [List.lookup, hb2, dremove] using ih

theorem mem_keys_dinsert {α : Type} (a k : String) (v : α) (l : List (String × α))
    (h : a ∈ l.map Prod.fst) : a ∈ (dinsert k v l).map Prod.fst := by
  induction l with
  | nil => simp at h
  | cons p rest ih =>
    obtain ⟨k2, v2⟩ := p
    simp only [dinsert]
    by_cases hk : k2 = k
    · subst hk
      simpa using h
    · have hb : (k2 == k) = false := beq_eq_false_iff_ne.mpr hk
      simp only [hb, if_false, List.map_cons]
      rcases List.mem_cons.mp h with h2 | h2
      · exact List.mem_cons.mpr (Or.inl h2)
      · exact List.mem_cons.mpr (Or.inr (ih h2))

theorem zeros_length (k : Nat) : (zeros k).length = k := by
  induction k with
  | zero => rfl
  | succ n ih =>
    have h0 : ("0" : String).length = 1 := rfl
    simp [zeros, String.length_append, ih, h0]
    omega

theorem pad6_length (i : Nat) : 6 ≤ (pad6 i).length := by
  simp [pad6, String.length_append, zeros_length]
  omega

theorem segName_length (i : Nat) : 17 ≤ (segName i).length := by
  have h := pad6_length i
  have h1 : ("segment_" : String).length = 8 := rfl
  have h2 : (".ts" : String).length = 3 := rfl
  simp [segName, String.length_append, h1, h2]
  omega

theorem segName_ne_endlist (i : Nat) : segName i ≠ "#EXT-X-ENDLIST" := by
  intro h
  have h2 := congrArg String.length h
  have h3 := segName_length i
  rw [h2] at h3
  have h4 : ("#EXT-X-ENDLIST" : String).length = 14 := rfl
  omega

theorem mediaseq_ne_endlist (x : String) :
    "#EXT-X-MEDIA-SEQUENCE:" ++ x ≠ "#EXT-X-ENDLIST" := by
  intro h
  have h2 := congrArg String.length h
  rw [String.length_append] at h2
  have : ("#EXT-X-MEDIA-SEQUENCE:" : String).length = 22 := by decide
  rw [this] at h2
  have : ("#EXT-X-ENDLIST" : String).length = 14 := by decide
  omega

theorem no_endlist_in_segLines (L : List Nat) :
    "#EXT-X-ENDLIST" ∉ L.flatMap (fun i => ["#EXTINF:4.0,", segName i]) := by
  intro h
  rcases List.mem_flatMap.mp h with ⟨i, _, hmem⟩
  rcases List.mem_cons.mp hmem with h2 | h2
  · exact absurd h2 (by decide)
  · rcases List.mem_cons.mp h2 with h3 | h3
    · exact segName_ne_endlist i h3.symm
    · simp at h3

theorem no_endlist_in_media (last_segment : Nat) :
    (mediaPlaylistLines last_segment).contains "#EXT-X-ENDLIST" = false := by
  have hmem : "#EXT-X-ENDLIST" ∉ mediaPlaylistLines last_segment := by
    intro h
    simp only [mediaPlaylistLines, List.append_assoc, List.mem_append, List.mem_cons] at h
    rcases h with (h | h | h | h | h) | h
    · exact absurd h (by decide)
    · exact absurd h (by decide)
    · exact absurd h (by decide)
    · exact mediaseq_ne_endlist _ h.symm
    · simp at h
    · exact no_endlist_in_segLines (playlistSegs last_segment) (by simpa [segLines] using h)
  simpa using hmem

theorem playlistSegs_head (last_segment : Nat) :
    (playlistSegs last_segment).head? = some (mediaSeqStart last_segment) := by
  have h : last_segment + 1 - mediaSeqStart last_segment =
      (last_segment + 1 - mediaSeqStart last_segment - 1) + 1 := by
    simp [mediaSeqStart]
    omega
  rw [playlistSegs, h, List.range']
  rfl

end Aries

namespace Aries

open DetectionSimulator StreamProcessor MockStream WebSocketManager

/-- C6: with the window size 5 hard-coded in `_update_media_playlist`,
after appending the segment with sequence 5 the playlist lists exactly
sequences 1–5, sequence 0 is gone, and the `#EXT-X-MEDIA-SEQUENCE` value
is the sequence number of the oldest retained segment — in general the
media-sequence value heads the retained list. -/
theorem C6_playlist_window :
    playlistSegs 5 = [1, 2, 3, 4, 5] ∧
    (playlistSegs 5).contains 0 = false ∧
    mediaSeqStart 5 = 1 ∧
    (mediaPlaylistLines 5).contains "#EXT-X-MEDIA-SEQUENCE:1" = true ∧
    segLines 5 = ["#EXTINF:4.0,", "segment_000001.ts", "#EXTINF:4.0,", "segment_000002.ts",
      "#EXTINF:4.0,", "segment_000003.ts", "#EXTINF:4.0,", "segment_000004.ts",
      "#EXTINF:4.0,", "segment_000005.ts"] ∧
    ∀ last_segment : Nat,
      (playlistSegs last_segment).head? = some (mediaSeqStart last_segment) :=
  ⟨by decide, by decide, rfl, by decide, by decide, playlistSegs_head⟩

/-- C7: the mock media playlist is headed by `#EXTM3U`, version, target
duration and media sequence, lists each segment as an `#EXTINF` line
followed by the segment reference, and never contains `#EXT-X-ENDLIST`
however often the window rotates; but `StreamManager.get_hls_playlist`
appends `#EXT-X-ENDLIST` to every playlist it generates (and carries no
`#EXT-X-MEDIA-SEQUENCE` header), exhibited on a one-segment live
playlist. -/
theorem C7_live_playlist_end_marker :
    mediaPlaylistLines 5 = ["#EXTM3U", "#EXT-X-VERSION:3", "#EXT-X-TARGETDURATION:4",
      "#EXT-X-MEDIA-SEQUENCE:1", "#EXTINF:4.0,", "segment_000001.ts", "#EXTINF:4.0,",
      "segment_000002.ts", "#EXTINF:4.0,", "segment_000003.ts", "#EXTINF:4.0,",
      "segment_000004.ts", "#EXTINF:4.0,", "segment_000005.ts"] ∧
    (∀ last_segment : Nat,
      (mediaPlaylistLines last_segment).contains "#EXT-X-ENDLIST" = false) ∧
    get_hls_playlist_lines c7Playlist = ["#EXTM3U", "#EXT-X-VERSION:3",
      "#EXT-X-TARGETDURATION:3", "#EXTINF:2.000,", "segment_abc12345.ts",
      "#EXT-X-ENDLIST"] ∧
    (get_hls_playlist_lines c7Playlist).contains "#EXT-X-ENDLIST" = true ∧
    (get_hls_playlist_lines c7Playlist).any
      (fun l => List.isPrefixOf "#EXT-X-MEDIA-SEQUENCE:".data l.data) = false :=
  ⟨by decide, no_endlist_in_media, by decide, by decide, by decide⟩

/-- C9: the reuse-eligibility test of `generate_object_id` compares
`(utcnow() - last_seen).seconds` — the seconds-within-day component —
against 30, so a track last seen one day and ten seconds earlier (far
beyond the 30-second window) is still returned as a reuse candidate and
its id is reused; moreover no detection step ever removes a key from the
track store, so expired tracks are never pruned. -/
theorem C9_reuse_window_and_pruning :
    reuseCandidates c9Store "cam1" "person" 86410 = ["person_old"] ∧
    30 ≤ 86410 - 0 ∧
    generate_object_id c9Store "cam1" "person" 86410 true 0 "person_f1a2b3c4" = "person_old" ∧
    ∀ (s : SimState) (cam oid cls : String) (now : Nat),
      s.active_detections.all (fun p =>
        ((simulate_detection s cam oid cls now).active_detections.map Prod.fst).contains p.1)
        = true := by
  refine ⟨by decide, by decide, by decide, ?_⟩
  intro s cam oid cls now
  rw [List.all_eq_true]
  intro p hp
  have hmem : p.1 ∈ (simulate_detection s cam oid cls now).active_detections.map Prod.fst := by
    simp only [simulate_detection]
    exact mem_keys_dinsert p.1 oid _ s.active_detections
      (List.mem_map.mpr ⟨p, hp, rfl⟩)
  simpa using hmem

end Aries

namespace Aries

open DetectionSimulator Consumer StreamProcessor WebSocketManager

/-- C1: in a broadcast to the two-member global scope of `brokenState`
where delivery to connection 1 fails, connection 2 still receives the
message and 1 leaves the global set; but the cascading drop leaves 1 in
the user scope `"u"` (the handler calls `disconnect` without a
`user_id`) and in the camera scope `"b"` (deleting the emptied entry
`"a"` during dict iteration raises, aborting the cascade), and dropping
1 a second time changes the indices again — the drop is not
idempotent. -/
theorem C1_delivery_failure_drop :
    (broadcast_message brokenState (fun c => c == 1)).2 = [2] ∧
    (broadcast_message brokenState (fun c => c == 1)).1.active_connections = [2] ∧
    (broadcast_message brokenState (fun c => c == 1)).1.user_subscriptions = [("u", [1])] ∧
    (broadcast_message brokenState (fun c => c == 1)).1.camera_subscriptions = [("b", [1, 2])] ∧
    (disconnect brokenState 1 none).camera_subscriptions = [("b", [1, 2])] ∧
    (disconnect (disconnect brokenState 1 none) 1 none).camera_subscriptions = [("b", [2])] := by
  decide

/-- C2: with an unexpired track `"person_abc"` (seen 5 seconds ago) and
a count of 5, the resolver reuses the existing id, yet
`simulate_detection` still increments the per-camera per-class counter
to 6: the stored record never carries `first_seen`, so the novelty gate
`(utcnow() - record.get("first_seen", utcnow())).seconds < 1` passes on
every detection. -/
theorem C2_reused_id_still_counted :
    generate_object_id c2State.active_detections "cam1" "person" 105 true 0 "person_b2c3d4e5"
      = "person_abc" ∧
    tdSeconds (105 - 100) < 30 ∧
    (simulate_detection c2State "cam1" "person_abc" "person" 105).object_counters
      = [("cam1", [("person", 6)])] := by
  decide

/-- C3: for a message whose entities resolve but whose store write
raises (transient store-unavailable), the `try` body of
`process_message` does raise, but its blanket `except` swallows the
exception, so the consumer loop acknowledges the message instead of
negative-acknowledging it for redelivery. -/
theorem C3_store_failure_acked :
    process_message_body c3Env c3Msg = Except.error "store unavailable" ∧
    process_message c3Env c3Msg = Except.ok ProcResult.storeError ∧
    consume_step c3Env (some c3Msg) = AckAction.ack :=
  ⟨rfl, rfl, rfl⟩

/-- C5: starting a stream whose source cannot be opened performs exactly
one open attempt — not the configured `reconnect_attempts = 3` — with no
delay (`reconnect_delay = 5` is never used), then returns failure with
no session retained. -/
theorem C5_single_open_attempt :
    (start_stream emptyManager "cam1" "rtsp://cam1" false).2.2 = [StreamEvent.openAttempt] ∧
    (start_stream emptyManager "cam1" "rtsp://cam1" false).2.2.length = 1 ∧
    ({ camera_id := "cam1", url := "rtsp://cam1" } : StreamConfig).reconnect_attempts = 3 ∧
    ({ camera_id := "cam1", url := "rtsp://cam1" } : StreamConfig).reconnect_delay = 5 ∧
    (start_stream emptyManager "cam1" "rtsp://cam1" false).2.1 = false ∧
    (start_stream emptyManager "cam1" "rtsp://cam1" false).1 = emptyManager := by
  decide

end Aries

namespace Aries

open StreamProcessor WebSocketManager

theorem read_frame_fail (t : ProcState) (h1 : t.cap = true) (h2 : t.is_connected = true) :
    (read_frame t false 0).1 =
      (if t.config.reconnect_attempts ≤ t.error_count + 1
       then cleanup { t with error_count := t.error_count + 1 }
       else { t with error_count := t.error_count + 1 }) := by
  simp only [read_frame, h1, h2, Bool.not_true, Bool.or_self, Bool.false_eq_true, if_false]
  split <;> simp_all

/-- C4: from any connected session with a clean error counter and the
configured threshold 3, every failed read increments the consecutive
error counter; the first two failures leave the session connected at
counts 1 and 2, and the third reaches the threshold: the capture handle
is released, both buffers are cleared, the session is removed from the
manager's active set, and a status query for the camera then reports
not-found. -/
theorem C4_error_threshold_teardown (s : ProcState) (m : ManagerState) (cam : String)
    (hcap : s.cap = true) (hconn : s.is_connected = true) (herr : s.error_count = 0)
    (hthr : s.config.reconnect_attempts = 3)
    (hm : List.lookup cam m.streams = some s) :
    (∀ t : ProcState, t.cap = true → t.is_connected = true →
      (read_frame t false 0).1.error_count = t.error_count + 1) ∧
    (runReads s [false]).error_count = 1 ∧
    (runReads s [false]).is_connected = true ∧
    (runReads s [false, false]).error_count = 2 ∧
    (runReads s [false, false]).is_connected = true ∧
    (runReads s [false, false, false]).is_connected = false ∧
    (runReads s [false, false, false]).cap = false ∧
    (runReads s [false, false, false]).frame_buffer = [] ∧
    (runReads s [false, false, false]).metadata_buffer = [] ∧
    (runReads s [false, false, false]).stream_status = "disconnected" ∧
    get_stream_info (processStreamFinal m cam [false, false, false]) cam = none := by
  have hstep : ∀ t : ProcState, t.cap = true → t.is_connected = true →
      (read_frame t false 0).1.error_count = t.error_count + 1 := by
    intro t h1 h2
    rw [read_frame_fail t h1 h2]
    split <;> rfl
  have e1 : (read_frame s false 0).1 = { s with error_count := 1 } := by
    rw [read_frame_fail s hcap hconn, herr, hthr]
    norm_num
  have e2 : (read_frame { s with error_count := 1 } false 0).1 =
      { s with error_count := 2 } := by
    have hc : ({ s with error_count := 1 } : ProcState).config.reconnect_attempts = 3 := hthr
    rw [read_frame_fail { s with error_count := 1 } (by exact hcap) (by exact hconn), hc]
    norm_num
  have e3 : (read_frame { s with error_count := 2 } false 0).1 =
      cleanup { s with error_count := 3 } := by
    have hc : ({ s with error_count := 2 } : ProcState).config.reconnect_attempts = 3 := hthr
    rw [read_frame_fail { s with error_count := 2 } (by exact hcap) (by exact hconn), hc]
    norm_num
  have r1 : runReads s [false] = { s with error_count := 1 } := e1
  have r2 : runReads s [false, false] = { s with error_count := 2 } := by
    show (read_frame (read_frame s false 0).1 false 0).1 = _
    rw [e1, e2]
  have r3 : runReads s [false, false, false] = cleanup { s with error_count := 3 } := by
    show (read_frame (read_frame (read_frame s false 0).1 false 0).1 false 0).1 = _
    rw [e1, e2, e3]
  refine ⟨hstep, by rw [r1], by rw [r1]; exact hconn, by rw [r2], by rw [r2]; exact hconn,
    by rw [r3]; rfl, by rw [r3]; rfl, by rw [r3]; rfl, by rw [r3]; rfl, by rw [r3]; rfl, ?_⟩
  have hnoconn : (cleanup { s with error_count := 3 }).is_connected = false := rfl
  simp only [processStreamFinal, hm, r3, hnoconn, Bool.false_eq_true, if_false,
    stop_stream, get_stream_info, lookup_dinsert, lookup_dremove]

/-- C4 witness: the concrete connected session `c4Proc` under
`c4Manager`, threshold 3, torn down after three failed reads. -/
theorem C4_error_threshold_teardown_witness :
    (runReads c4Proc [false, false, false]).is_connected = false ∧
    get_stream_info (processStreamFinal c4Manager "cam1" [false, false, false]) "cam1"
      = none := by
  have h := C4_error_threshold_teardown c4Proc c4Manager "cam1"
    (by decide) (by decide) (by decide) (by decide) (by decide)
  exact ⟨h.2.2.2.2.2.1, h.2.2.2.2.2.2.2.2.2.2⟩

theorem foldl_send_nofail (l : List Conn) (s : CMState) :
    List.foldl (fun acc c => (send_personal_message acc c (fun _ => false)).1) s l = s := by
  induction l generalizing s with
  | nil => rfl
  | cons c rest ih => exact ih s

theorem broadcast_message_nofail (s : CMState) :
    broadcast_message s (fun _ => false) = (s, s.active_connections) := by
  simp [broadcast_message, foldl_send_nofail]

theorem broadcast_detection_nofail (s : CMState) (cid : String) :
    broadcast_detection s (some cid) (fun _ => false) =
      (s, s.active_connections ++ camSet s cid) := by
  cases h : List.lookup cid s.camera_subscriptions with
  | none =>
    simp [broadcast_detection, broadcast_message_nofail, broadcast_to_camera_subscribers,
      h, camSet]
  | some websockets =>
    simp [broadcast_detection, broadcast_message_nofail, broadcast_to_camera_subscribers,
      h, camSet, foldl_send_nofail]

/-- C10: a fault-free `broadcast_detection` leaves the state unchanged
and delivers the message to every active connection whatever its camera
subscriptions; an active connection subscribed to the event's camera
receives the message twice (global pass plus camera pass) while one not
subscribed to it — subscribed to another camera or to none — receives it
exactly once. -/
theorem C10_broadcast_detection_double_delivery (s : CMState) (cid : String) (w : Conn)
    (hnd : s.active_connections.Nodup) (hndc : (camSet s cid).Nodup)
    (hw : w ∈ s.active_connections) :
    (broadcast_detection s (some cid) (fun _ => false)).1 = s ∧
    w ∈ (broadcast_detection s (some cid) (fun _ => false)).2 ∧
    (w ∈ camSet s cid →
      ((broadcast_detection s (some cid) (fun _ => false)).2.count w = 2)) ∧
    (w ∉ camSet s cid →
      ((broadcast_detection s (some cid) (fun _ => false)).2.count w = 1)) := by
  rw [broadcast_detection_nofail]
  refine ⟨rfl, List.mem_append_left _ hw, ?_, ?_⟩
  · intro hc
    rw [List.count_append, List.count_eq_one_of_mem hnd hw,
      List.count_eq_one_of_mem hndc hc]
  · intro hc
    rw [List.count_append, List.count_eq_one_of_mem hnd hw,
      List.count_eq_zero_of_not_mem hc]

/-- C10 witness: in `c10State`, the subscriber of camera `"camA"`
receives the detection twice and the unsubscribed connection once. -/
theorem C10_broadcast_detection_double_delivery_witness :
    (broadcast_detection c10State (some "camA") (fun _ => false)).2.count 2 = 2 ∧
    (broadcast_detection c10State (some "camA") (fun _ => false)).2.count 1 = 1 := by
  refine ⟨?_, ?_⟩
  · exact (C10_broadcast_detection_double_delivery c10State "camA" 2
      (by decide) (by decide) (by decide)).2.2.1 (by decide)
  · exact (C10_broadcast_detection_double_delivery c10State "camA" 1
      (by decide) (by decide) (by decide)).2.2.2 (by decide)

end Aries
